import Mathlib

/-!
Shallow embedding of the image-storage core of the Image-nexus repository
(package `storage`): the decoder registry, the local-filesystem backend
(`localImageStorage`) and the S3/CloudFront backend (`s3ImageStorage`),
with their `Save`, `Get` and `GetFullPath` operations.

External effects are made explicit:
  * the filesystem is a value of type `FS` (directories plus a path → bytes map);
  * the S3 medium is a value of type `S3World`;
  * the Go standard-library codecs (`http.DetectContentType`, the six
    `DecodeConfig` functions) are parameters collected in `ExternalCodecs`;
  * fallible I/O primitives (open, read, seek, create, copy, upload) are
    driven by an oracle `SaveEnv` / `GetEnv` / `S3GetEnv` recording, per call,
    which primitive fails and with which error message.

Byte sequences are `List Nat`; Go's `int32` narrowing conversions are modelled
by the wrap-around function `int32 : Int → Int`.
-/

deriving instance DecidableEq for Except

/-- Two's-complement narrowing to a signed 32-bit value, as Go's `int32(x)`
conversion computes it. -/
def int32 (n : Int) : Int := (n + 2 ^ 31) % 2 ^ 32 - 2 ^ 31

/-- Helper for `filepathExt`: scans the reversed character list of a path;
stops at a path separator, and when it finds a dot returns that dot together
with the (already reversed back) characters after it. -/
def extFromRev : List Char → List Char → List Char
  | [], _ => []
  | c :: rest, acc =>
    if c = '/' then []
    else if c = '.' then c :: acc
    else extFromRev rest (c :: acc)

/-- Go's `filepath.Ext`: the suffix of the path beginning at the final dot in
the final path element; empty when that element has no dot. -/
def filepathExt (name : String) : String := ⟨extFromRev name.data.reverse []⟩

/-- The 512-byte buffer handed to the sniffer. The source allocates a 512-byte
zero buffer, issues one `Read` into it and passes the whole buffer to
`http.DetectContentType`, so short uploads are zero-padded. -/
def sniffBuffer (content : List Nat) : List Nat :=
  content.take 512 ++ List.replicate (512 - min 512 content.length) 0

/-- Go's `image.Config`: the header-only decode result (pixel dimensions). -/
structure ImageConfig where
  Width : Int
  Height : Int
deriving DecidableEq

/-- A header decoder (Go `func(r io.Reader) (image.Config, error)` positioned
at the start of the stream): on success it also reports how many bytes of the
stream it consumed, which is where the reader is left positioned. -/
abbrev Decoder := List Nat → Except String (ImageConfig × Nat)

/-- The external Go standard-library codecs the storage package links against:
the content-type sniffer and the six `DecodeConfig` functions. They are
parameters of the embedding, not repository code. -/
structure ExternalCodecs where
  detectContentType : List Nat → String
  jpegDecode : Decoder
  pngDecode : Decoder
  gifDecode : Decoder
  tiffDecode : Decoder
  webpDecode : Decoder
  bmpDecode : Decoder

/-- The source's `CONTENT_DECODERS` map: six MIME types, each bound to the
matching standard-library `DecodeConfig` function. -/
def CONTENT_DECODERS (cod : ExternalCodecs) : List (String × Decoder) :=
  [("image/jpeg", cod.jpegDecode),
   ("image/png", cod.pngDecode),
   ("image/gif", cod.gifDecode),
   ("image/tiff", cod.tiffDecode),
   ("image/webp", cod.webpDecode),
   ("image/bmp", cod.bmpDecode)]

/-- Go map lookup over the registry. -/
def lookupDecoder : List (String × Decoder) → String → Option Decoder
  | [], _ => none
  | (k, d) :: rest, t => if k = t then some d else lookupDecoder rest t

/-- The MIME types the registry supports, in the order of its literal. -/
def supportedTypes : List String :=
  ["image/jpeg", "image/png", "image/gif", "image/tiff", "image/webp", "image/bmp"]

/-- `dto.InvalidPictureFileError`: HTTP-status classification, underlying
cause (its message), and optional diagnostic data. The only `Data` the source
ever attaches is `gin.H{"format": fileType}`, modelled as `some fileType`. -/
structure InvalidPictureFileError where
  StatusCode : Nat
  Error : String
  Data : Option String
deriving DecidableEq

/-- `dto.PictureRequest`: descriptor returned by a successful `Save`.
`Height`, `Width` and `Size` are `int32` in the source. -/
structure PictureRequest where
  Name : String
  Destination : String
  Height : Int
  Width : Int
  Size : Int
  ContentType : String
deriving DecidableEq

/-- `multipart.FileHeader`: the uploaded file's name and bytes; its `Size`
field is the byte length of the part, i.e. `content.length` here. -/
structure FileHeader where
  filename : String
  content : List Nat
deriving DecidableEq

/-- The local medium: existing directories and a path → bytes file map
(first binding wins, so writing prepends). -/
structure FS where
  dirs : List String
  files : List (String × List Nat)
deriving DecidableEq

/-- Lookup of a path in the file map (first match). -/
def findFile : List (String × List Nat) → String → Option (List Nat)
  | [], _ => none
  | (q, b) :: rest, p => if q = p then some b else findFile rest p

/-- Writing a file: the new binding shadows any older one. -/
def writeFile (fs : FS) (p : String) (body : List Nat) : FS :=
  { fs with files := (p, body) :: fs.files }

/-- Helper for `parentDir`: scans the reversed character list of a path and
drops everything up to and including the last separator. -/
def parentRev : List Char → List Char
  | [] => []
  | c :: rest => if c = '/' then rest else parentRev rest

/-- The directory part of a path: everything before the last separator
(empty when the path has no separator). -/
def parentDir (p : String) : String :=
  ⟨(parentRev p.data.reverse).reverse⟩

/-- Per-call failure oracle for `Save`: which fallible primitive fails, and
with what message. `createErr`/`copyErr` belong to the local variant,
`uploadErr` to the S3 variant. -/
structure SaveEnv where
  openErr : Option String
  readErr : Option String
  seek1Err : Option String
  seek2Err : Option String
  createErr : Option String
  copyErr : Option String
  uploadErr : Option String
deriving DecidableEq

/-- The run in which every I/O primitive succeeds. -/
def cleanSaveEnv : SaveEnv := ⟨none, none, none, none, none, none, none⟩

/-- Outcome of the single 512-byte `Read`: an empty stream yields `io.EOF`
(so a 0-byte upload always fails here); otherwise the oracle decides. -/
def readStepErr (env : SaveEnv) (file : FileHeader) : Option String :=
  if file.content.isEmpty then some "EOF" else env.readErr

/-- `os.Create`: fails if the oracle says so or the parent directory does not
exist; on success the file exists with empty content (truncation). -/
def osCreate (fs : FS) (err : Option String) (p : String) : Except String FS :=
  match err with
  | some e => .error e
  | none =>
    if parentDir p ∈ fs.dirs then .ok (writeFile fs p [])
    else .error ("open " ++ p ++ ": no such file or directory")

/-- The local backend: a root directory path. -/
structure localImageStorage where
  path : String
deriving DecidableEq

/-- `storage.NewStorage`: if the root directory does not exist it is created
here, at construction time (`os.Stat` + `os.Mkdir`; a `Mkdir` failure is
`log.Fatalln`, i.e. process abort, and is not modelled). -/
def NewStorage (path : String) (fs : FS) : localImageStorage × FS :=
  if path ∈ fs.dirs then ({ path := path }, fs)
  else ({ path := path }, { fs with dirs := path :: fs.dirs })

/-- `localImageStorage.GetFullPath`: literal concatenation `root ++ "/" ++ key`. -/
def localImageStorage.GetFullPath (s : localImageStorage) (destination : String) : String :=
  s.path ++ "/" ++ destination

/-- `localImageStorage.Save`, step for step from the source: derive the
destination key, open, read 512 bytes, sniff, registry lookup, seek to start,
header decode, `os.Create`, seek to start again — the source DISCARDS this
second seek's error (line 194) — then copy the stream from its current
position. Status codes: 500 = `http.StatusInternalServerError`,
400 = `http.StatusBadRequest`. -/
def localImageStorage.Save (s : localImageStorage) (cod : ExternalCodecs)
    (env : SaveEnv) (uniq : String) (file : FileHeader) (fs : FS) :
    Except InvalidPictureFileError PictureRequest × FS :=
  let destination := uniq ++ filepathExt file.filename
  let fullPath := s.GetFullPath destination
  match env.openErr with
  | some e => (.error { StatusCode := 500, Error := e, Data := none }, fs)
  | none =>
    match readStepErr env file with
    | some e => (.error { StatusCode := 500, Error := e, Data := none }, fs)
    | none =>
      let fileType := cod.detectContentType (sniffBuffer file.content)
      match lookupDecoder (CONTENT_DECODERS cod) fileType with
      | none =>
        (.error { StatusCode := 400, Error := "unsupported format", Data := some fileType }, fs)
      | some decoder =>
        match env.seek1Err with
        | some e => (.error { StatusCode := 500, Error := e, Data := none }, fs)
        | none =>
          match decoder file.content with
          | .error e =>
            (.error { StatusCode := 500, Error := e, Data := some fileType }, fs)
          | .ok (imageConfig, consumed) =>
            match osCreate fs env.createErr fullPath with
            | .error e => (.error { StatusCode := 500, Error := e, Data := none }, fs)
            | .ok fsCreated =>
              match env.copyErr with
              | some e =>
                (.error { StatusCode := 500, Error := e, Data := none }, fsCreated)
              | none =>
                (.ok { Name := file.filename, Destination := destination,
                       Height := int32 imageConfig.Height,
                       Width := int32 imageConfig.Width,
                       Size := int32 file.content.length,
                       ContentType := fileType },
                 writeFile fsCreated fullPath
                   (file.content.drop
                     (match env.seek2Err with | some _ => consumed | none => 0)))

/-- Per-call failure oracle for the local `Get` (`os.Open`, `ReadAll`). -/
structure GetEnv where
  openErr : Option String
  readErr : Option String
deriving DecidableEq

/-- The read in which both primitives succeed. -/
def cleanGetEnv : GetEnv := ⟨none, none⟩

/-- `localImageStorage.Get`: open `<root>/<key>`, read fully; every failure —
missing file included — is returned as the raw medium error, untranslated. -/
def localImageStorage.Get (s : localImageStorage) (env : GetEnv) (fs : FS)
    (destination : String) : Except String (List Nat) :=
  let fullPath := s.GetFullPath destination
  match env.openErr with
  | some e => .error e
  | none =>
    match findFile fs.files fullPath with
    | none => .error ("open " ++ fullPath ++ ": no such file or directory")
    | some body =>
      match env.readErr with
      | some e => .error e
      | none => .ok body

/-- The S3 backend configuration. The source field named after the key path
pre-fix is called `pfx` here. -/
structure s3ImageStorage where
  bucket : String
  pfx : String
  cloudFrontURL : String
deriving DecidableEq

/-- `storage.NewS3Storage`'s pure configuration part: reads bucket, key
pre-fix and CloudFront base URL, appending a trailing slash to the pre-fix
when it is nonempty and lacks one. -/
def NewS3Storage (bucket pfxRaw cfURL : String) : s3ImageStorage :=
  { bucket := bucket
    pfx := if pfxRaw ≠ "" ∧ pfxRaw.back ≠ '/' then pfxRaw ++ "/" else pfxRaw
    cloudFrontURL := cfURL }

/-- `s3ImageStorage.GetFullPath`: `fmt.Sprintf("%s/%s%s", cloudFrontURL, pfx, destination)`. -/
def s3ImageStorage.GetFullPath (s : s3ImageStorage) (destination : String) : String :=
  s.cloudFrontURL ++ "/" ++ s.pfx ++ destination

/-- A stored S3 object: its bytes plus the content type and canned ACL the
upload attached. -/
structure S3Object where
  data : List Nat
  contentType : String
  acl : String
deriving DecidableEq

/-- The S3 medium: (bucket, key) → object, first binding wins. -/
structure S3World where
  objects : List ((String × String) × S3Object)
deriving DecidableEq

/-- Lookup of a (bucket, key) pair in the medium. -/
def s3FindObject : List ((String × String) × S3Object) → String → String → Option S3Object
  | [], _, _ => none
  | (bk, obj) :: rest, bucket, key =>
    if bk = (bucket, key) then some obj else s3FindObject rest bucket key

/-- A successful upload: the new object shadows any older one at that key. -/
def s3Put (w : S3World) (bucket key : String) (obj : S3Object) : S3World :=
  { objects := ((bucket, key), obj) :: w.objects }

/-- `s3ImageStorage.Save`, step for step from the source: same pipeline as the
local variant, but the seek before the upload IS error-checked, and the
persistence step is `uploader.Upload` with `Key = pfx + destination`, the
sniffed content type, and `ACL = private`. -/
def s3ImageStorage.Save (s : s3ImageStorage) (cod : ExternalCodecs)
    (env : SaveEnv) (uniq : String) (file : FileHeader) (w : S3World) :
    Except InvalidPictureFileError PictureRequest × S3World :=
  let destination := uniq ++ filepathExt file.filename
  match env.openErr with
  | some e => (.error { StatusCode := 500, Error := "cannot open file: " ++ e, Data := none }, w)
  | none =>
    match readStepErr env file with
    | some e =>
      (.error { StatusCode := 500, Error := "cannot read file header: " ++ e, Data := none }, w)
    | none =>
      let contentType := cod.detectContentType (sniffBuffer file.content)
      match lookupDecoder (CONTENT_DECODERS cod) contentType with
      | none =>
        (.error { StatusCode := 400, Error := "unsupported image format",
                  Data := some contentType }, w)
      | some decoder =>
        match env.seek1Err with
        | some e => (.error { StatusCode := 500, Error := "seek error: " ++ e, Data := none }, w)
        | none =>
          match decoder file.content with
          | .error e =>
            (.error { StatusCode := 500, Error := "decode error: " ++ e,
                      Data := some contentType }, w)
          | .ok (imageCfg, _consumed) =>
            let key := s.pfx ++ destination
            match env.seek2Err with
            | some e =>
              (.error { StatusCode := 500, Error := "seek before upload: " ++ e,
                        Data := none }, w)
            | none =>
              match env.uploadErr with
              | some e =>
                (.error { StatusCode := 500, Error := "s3 upload failed: " ++ e,
                          Data := none }, w)
              | none =>
                (.ok { Name := file.filename, Destination := destination,
                       Height := int32 imageCfg.Height,
                       Width := int32 imageCfg.Width,
                       Size := int32 file.content.length,
                       ContentType := contentType },
                 s3Put w s.bucket key
                   { data := file.content, contentType := contentType, acl := "private" })

/-- An S3 API error as the SDK surfaces it: `code = some c` when the error
implements `ErrorCode()` (so `errors.As` succeeds), plus a message. -/
structure S3ApiErr where
  code : Option String
  msg : String
deriving DecidableEq

/-- The error taxonomy of the repository's `s3ImageStorage.Get`:
`S3NotFoundError` versus `S3DownloadError`. -/
inductive S3GetError where
  | notFound (key : String)
  | downloadFailed (key : String) (msg : String)
deriving DecidableEq

/-- Per-call failure oracle for the S3 `Get`: an optional transport-level
error for `GetObject`, and an optional failure of the body copy. -/
structure S3GetEnv where
  transportErr : Option S3ApiErr
  copyErr : Option String
deriving DecidableEq

/-- The fetch in which the medium behaves. -/
def cleanS3GetEnv : S3GetEnv := ⟨none, none⟩

/-- The medium's `GetObject`: a forced transport error if the oracle says so;
otherwise a missing key surfaces as the API error code `NoSuchKey`, and a
present key returns its bytes. -/
def s3GetObject (w : S3World) (env : S3GetEnv) (bucket key : String) :
    Except S3ApiErr (List Nat) :=
  match env.transportErr with
  | some e => .error e
  | none =>
    match s3FindObject w.objects bucket key with
    | some obj => .ok obj.data
    | none => .error { code := some "NoSuchKey", msg := "NoSuchKey: the specified key does not exist" }

/-- `s3ImageStorage.Get`: fetch `bucket / pfx + key`; an error whose API code
is `NoSuchKey` becomes `S3NotFoundError`, every other failure (including a
body-copy failure) becomes `S3DownloadError`. -/
def s3ImageStorage.Get (s : s3ImageStorage) (env : S3GetEnv) (w : S3World)
    (destination : String) : Except S3GetError (List Nat) :=
  let key := s.pfx ++ destination
  match s3GetObject w env s.bucket key with
  | .error e =>
    match e.code with
    | some c =>
      if c = "NoSuchKey" then .error (.notFound destination)
      else .error (.downloadFailed destination e.msg)
    | none => .error (.downloadFailed destination e.msg)
  | .ok body =>
    match env.copyErr with
    | some e => .error (.downloadFailed destination e)
    | none => .ok body

/-- Path normalization — a specification-side notion, not repository code —
used only to express that a key containing `..` segments escapes the root
directory: resolves `.`/`..`/empty segments left to right. -/
def normalizeSegs : List String → List String → List String
  | acc, [] => acc.reverse
  | acc, seg :: rest =>
    if seg = "" ∨ seg = "." then normalizeSegs acc rest
    else if seg = ".." then normalizeSegs acc.tail rest
    else normalizeSegs (seg :: acc) rest

/-- Split a character list at `/` separators (structural helper for
`normalizePath`). -/
def splitSlash : List Char → List Char → List String
  | [], acc => [⟨acc.reverse⟩]
  | c :: rest, acc =>
    if c = '/' then (⟨acc.reverse⟩ : String) :: splitSlash rest []
    else splitSlash rest (c :: acc)

/-- Normalize a `/`-separated path (specification-side notion, see
`normalizeSegs`). -/
def normalizePath (p : String) : String :=
  String.intercalate "/" (normalizeSegs [] (splitSlash p.data []))

/-- First four bytes of the PNG signature (what a sniffer keys on). -/
def pngMagic : List Nat := [137, 80, 78, 71]

/-- The full eight-byte PNG signature. -/
def pngSig : List Nat := [137, 80, 78, 71, 13, 10, 26, 10]

/-- A deterministic concrete instantiation of the external codecs, used for
witness evaluations: the sniffer recognizes the PNG magic and classifies
everything else as `text/plain`; the PNG header decoder demands the full
eight-byte signature (so a stream carrying only the four magic bytes sniffs
as PNG yet fails to decode), reports a 2×2 image and leaves the reader 33
bytes in (signature plus IHDR chunk). -/
def demoCodecs : ExternalCodecs :=
  { detectContentType := fun b => if b.take 4 = pngMagic then "image/png" else "text/plain"
    jpegDecode := fun _ => .error "invalid JPEG format"
    pngDecode := fun c =>
      if c.take 8 = pngSig then .ok ({ Width := 2, Height := 2 }, 33)
      else .error "png: not a PNG file"
    gifDecode := fun _ => .error "gif: reading header"
    tiffDecode := fun _ => .error "tiff: invalid header"
    webpDecode := fun _ => .error "webp: invalid format"
    bmpDecode := fun _ => .error "bmp: invalid format" }

/-- Local backend rooted at `uploads`. -/
def lgDemo : localImageStorage := { path := "uploads" }

/-- S3 backend over bucket `pics`, key path pre-fix `img/`, CDN base URL. -/
def s3Demo : s3ImageStorage :=
  { bucket := "pics", pfx := "img/", cloudFrontURL := "https://cdn.example.com" }

/-- A local medium where the root directory exists and no file does. -/
def fsDemo : FS := { dirs := ["uploads"], files := [] }

/-- An empty S3 medium. -/
def w0 : S3World := { objects := [] }

/-- A 70-byte valid PNG sample (signature plus padding), per the
specification's concrete 2×2, 70-byte scenario. -/
def pngSample : List Nat := pngSig ++ List.replicate 62 0

/-- The upload of the specification's concrete scenario. -/
def catFile : FileHeader := { filename := "cat.png", content := pngSample }

/-- A plain-text upload renamed to `.png` (bytes of `hello`). -/
def textFile : FileHeader := { filename := "cat.png", content := [104, 101, 108, 108, 111] }

/-- A four-byte stream: sniffs as PNG, but the header decode fails. -/
def truncatedFile : FileHeader := { filename := "cat.png", content := pngMagic }

/-- An oracle in which only the second seek — the reset before the
persistence copy — fails. -/
def seekFailEnv : SaveEnv := { cleanSaveEnv with seek2Err := some "seek failed" }

/-- A 2^31-byte valid PNG stream (signature plus padding). -/
def bigContent : List Nat := pngSig ++ List.replicate (2 ^ 31 - 8) 0

/-- A 2^31-byte upload, decodable as a PNG. -/
def bigFile : FileHeader := { filename := "big.png", content := bigContent }

/-- A codec bundle whose sniffer and PNG decoder inspect only O(1) of the
stream: every stream sniffs as PNG and decodes as a 2×2 image with the
reader left 33 bytes in. Used to evaluate `Save` on `bigFile` without
traversing its 2^31 bytes. -/
def bigCodecs : ExternalCodecs :=
  { detectContentType := fun _ => "image/png"
    jpegDecode := fun _ => .error "invalid JPEG format"
    pngDecode := fun _ => .ok ({ Width := 2, Height := 2 }, 33)
    gifDecode := fun _ => .error "gif: reading header"
    tiffDecode := fun _ => .error "tiff: invalid header"
    webpDecode := fun _ => .error "webp: invalid format"
    bmpDecode := fun _ => .error "bmp: invalid format" }

/-- The descriptor a successful save of `catFile` under unique name `u1`
returns. -/
def pr70 : PictureRequest :=
  { Name := "cat.png", Destination := "u1.png", Height := 2, Width := 2,
    Size := 70, ContentType := "image/png" }

/-- The local medium after a successful save of `catFile` into `fsDemo`
(the `os.Create` truncation binding, then the copied bytes). -/
def fsSaved : FS :=
  { dirs := ["uploads"],
    files := [("uploads/u1.png", pngSample), ("uploads/u1.png", [])] }

/-- The S3 medium after a successful save of `catFile` into `w0`. -/
def wSaved : S3World :=
  { objects := [(("pics", "img/u1.png"),
                 { data := pngSample, contentType := "image/png", acl := "private" })] }

/-- A local medium with no directories at all (root absent). -/
def fsEmpty : FS := { dirs := [], files := [] }

/-- The local medium after the save of `catFile` in which the pre-copy seek
failed: only the 37 bytes after the decoder's position (offset 33 of 70) got
copied. -/
def fsTrunc : FS :=
  { dirs := ["uploads"],
    files := [("uploads/u1.png", List.replicate 37 0), ("uploads/u1.png", [])] }

/-! ## Helper lemmas characterizing the branches of `Save` -/

theorem localSave_success (s : localImageStorage) (cod : ExternalCodecs) (env : SaveEnv)
    (uniq : String) (file : FileHeader) (t : String) (d : Decoder)
    (cfg : ImageConfig) (consumed : Nat) (fs : FS)
    (ho : env.openErr = none) (hr : readStepErr env file = none)
    (ht : cod.detectContentType (sniffBuffer file.content) = t)
    (hd : lookupDecoder (CONTENT_DECODERS cod) t = some d)
    (hs1 : env.seek1Err = none)
    (hdec : d file.content = .ok (cfg, consumed))
    (hcr : env.createErr = none)
    (hdir : parentDir (s.GetFullPath (uniq ++ filepathExt file.filename)) ∈ fs.dirs)
    (hs2 : env.seek2Err = none) (hcp : env.copyErr = none) :
    localImageStorage.Save s cod env uniq file fs =
      (.ok { Name := file.filename,
             Destination := uniq ++ filepathExt file.filename,
             Height := int32 cfg.Height, Width := int32 cfg.Width,
             Size := int32 file.content.length, ContentType := t },
       writeFile (writeFile fs (s.GetFullPath (uniq ++ filepathExt file.filename)) [])
         (s.GetFullPath (uniq ++ filepathExt file.filename)) file.content) := by
  subst ht
  simp [localImageStorage.Save, ho, hr, hd, hs1, hdec, osCreate, hcr, hdir, hs2, hcp]

theorem s3Save_success (s : s3ImageStorage) (cod : ExternalCodecs) (env : SaveEnv)
    (uniq : String) (file : FileHeader) (t : String) (d : Decoder)
    (cfg : ImageConfig) (consumed : Nat) (w : S3World)
    (ho : env.openErr = none) (hr : readStepErr env file = none)
    (ht : cod.detectContentType (sniffBuffer file.content) = t)
    (hd : lookupDecoder (CONTENT_DECODERS cod) t = some d)
    (hs1 : env.seek1Err = none)
    (hdec : d file.content = .ok (cfg, consumed))
    (hs2 : env.seek2Err = none) (hup : env.uploadErr = none) :
    s3ImageStorage.Save s cod env uniq file w =
      (.ok { Name := file.filename,
             Destination := uniq ++ filepathExt file.filename,
             Height := int32 cfg.Height, Width := int32 cfg.Width,
             Size := int32 file.content.length, ContentType := t },
       s3Put w s.bucket (s.pfx ++ (uniq ++ filepathExt file.filename))
         { data := file.content, contentType := t, acl := "private" }) := by
  subst ht
  simp [s3ImageStorage.Save, ho, hr, hd, hs1, hdec, hs2, hup]

theorem localSave_unsupported (s : localImageStorage) (cod : ExternalCodecs)
    (env : SaveEnv) (uniq : String) (file : FileHeader) (t : String) (fs : FS)
    (ho : env.openErr = none) (hr : readStepErr env file = none)
    (ht : cod.detectContentType (sniffBuffer file.content) = t)
    (hn : lookupDecoder (CONTENT_DECODERS cod) t = none) :
    localImageStorage.Save s cod env uniq file fs =
      (.error { StatusCode := 400, Error := "unsupported format", Data := some t }, fs) := by
  subst ht
  simp [localImageStorage.Save, ho, hr, hn]

theorem s3Save_unsupported (s : s3ImageStorage) (cod : ExternalCodecs)
    (env : SaveEnv) (uniq : String) (file : FileHeader) (t : String) (w : S3World)
    (ho : env.openErr = none) (hr : readStepErr env file = none)
    (ht : cod.detectContentType (sniffBuffer file.content) = t)
    (hn : lookupDecoder (CONTENT_DECODERS cod) t = none) :
    s3ImageStorage.Save s cod env uniq file w =
      (.error { StatusCode := 400, Error := "unsupported image format", Data := some t }, w) := by
  subst ht
  simp [s3ImageStorage.Save, ho, hr, hn]

theorem localSave_decode_error (s : localImageStorage) (cod : ExternalCodecs)
    (env : SaveEnv) (uniq : String) (file : FileHeader) (t : String) (d : Decoder)
    (e : String) (fs : FS)
    (ho : env.openErr = none) (hr : readStepErr env file = none)
    (ht : cod.detectContentType (sniffBuffer file.content) = t)
    (hd : lookupDecoder (CONTENT_DECODERS cod) t = some d)
    (hs1 : env.seek1Err = none)
    (hdec : d file.content = .error e) :
    localImageStorage.Save s cod env uniq file fs =
      (.error { StatusCode := 500, Error := e, Data := some t }, fs) := by
  subst ht
  simp [localImageStorage.Save, ho, hr, hd, hs1, hdec]

theorem s3Save_decode_error (s : s3ImageStorage) (cod : ExternalCodecs)
    (env : SaveEnv) (uniq : String) (file : FileHeader) (t : String) (d : Decoder)
    (e : String) (w : S3World)
    (ho : env.openErr = none) (hr : readStepErr env file = none)
    (ht : cod.detectContentType (sniffBuffer file.content) = t)
    (hd : lookupDecoder (CONTENT_DECODERS cod) t = some d)
    (hs1 : env.seek1Err = none)
    (hdec : d file.content = .error e) :
    s3ImageStorage.Save s cod env uniq file w =
      (.error { StatusCode := 500, Error := "decode error: " ++ e, Data := some t }, w) := by
  subst ht
  simp [s3ImageStorage.Save, ho, hr, hd, hs1, hdec]

theorem lookupDecoder_none_of_not_mem (cod : ExternalCodecs) (t : String)
    (h : t ∉ supportedTypes) :
    lookupDecoder (CONTENT_DECODERS cod) t = none := by
  simp only [supportedTypes, List.mem_cons, List.not_mem_nil, or_false, not_or] at h
  obtain ⟨h1, h2, h3, h4, h5, h6⟩ := h
  have g1 : ("image/jpeg" = t) = False := eq_false fun hh => h1 hh.symm
  have g2 : ("image/png" = t) = False := eq_false fun hh => h2 hh.symm
  have g3 : ("image/gif" = t) = False := eq_false fun hh => h3 hh.symm
  have g4 : ("image/tiff" = t) = False := eq_false fun hh => h4 hh.symm
  have g5 : ("image/webp" = t) = False := eq_false fun hh => h5 hh.symm
  have g6 : ("image/bmp" = t) = False := eq_false fun hh => h6 hh.symm
  simp [lookupDecoder, CONTENT_DECODERS, g1, g2, g3, g4, g5, g6]

theorem osCreate_ok_inv (fs : FS) (err : Option String) (p : String) (fs2 : FS)
    (h : osCreate fs err p = .ok fs2) : fs2 = writeFile fs p [] := by
  unfold osCreate at h
  cases err <;> simp at h
  split at h <;> simp at h
  exact h.symm

theorem localSave_ok_inv (s : localImageStorage) (cod : ExternalCodecs) (env : SaveEnv)
    (uniq : String) (file : FileHeader) (fs : FS) (pr : PictureRequest) (fs' : FS)
    (h : localImageStorage.Save s cod env uniq file fs = (.ok pr, fs')) :
    ∃ consumed : Nat,
      pr.Destination = uniq ++ filepathExt file.filename ∧
      pr.ContentType = cod.detectContentType (sniffBuffer file.content) ∧
      fs' = writeFile (writeFile fs (s.GetFullPath pr.Destination) [])
              (s.GetFullPath pr.Destination)
              (file.content.drop
                (match env.seek2Err with | some _ => consumed | none => 0)) := by
  unfold localImageStorage.Save at h
  cases ho : env.openErr <;> simp [ho] at h
  cases hr : readStepErr env file <;> simp [hr] at h
  cases hd : lookupDecoder (CONTENT_DECODERS cod)
      (cod.detectContentType (sniffBuffer file.content)) <;> simp [hd] at h
  rename_i d
  cases hs1 : env.seek1Err <;> simp [hs1] at h
  cases hdec : d file.content <;> simp [hdec] at h
  rename_i res
  obtain ⟨cfg, consumed⟩ := res
  cases hoc : osCreate fs env.createErr
      (s.GetFullPath (uniq ++ filepathExt file.filename)) <;> simp [hoc] at h
  rename_i fsCreated
  cases hcp : env.copyErr <;> simp [hcp] at h
  obtain ⟨hpr, hfs⟩ := h
  refine ⟨consumed, ?_, ?_, ?_⟩
  · rw [← hpr]
  · rw [← hpr]
  · rw [← hfs, ← hpr, osCreate_ok_inv fs env.createErr _ fsCreated hoc]

theorem s3Save_ok_inv (s : s3ImageStorage) (cod : ExternalCodecs) (env : SaveEnv)
    (uniq : String) (file : FileHeader) (w : S3World) (pr : PictureRequest) (w' : S3World)
    (h : s3ImageStorage.Save s cod env uniq file w = (.ok pr, w')) :
    pr.Destination = uniq ++ filepathExt file.filename ∧
    pr.ContentType = cod.detectContentType (sniffBuffer file.content) ∧
    w' = s3Put w s.bucket (s.pfx ++ pr.Destination)
           { data := file.content,
             contentType := cod.detectContentType (sniffBuffer file.content),
             acl := "private" } := by
  unfold s3ImageStorage.Save at h
  cases ho : env.openErr <;> simp [ho] at h
  cases hr : readStepErr env file <;> simp [hr] at h
  cases hd : lookupDecoder (CONTENT_DECODERS cod)
      (cod.detectContentType (sniffBuffer file.content)) <;> simp [hd] at h
  rename_i d
  cases hs1 : env.seek1Err <;> simp [hs1] at h
  cases hdec : d file.content <;> simp [hdec] at h
  rename_i res
  obtain ⟨cfg, consumed⟩ := res
  cases hs2 : env.seek2Err <;> simp [hs2] at h
  cases hup : env.uploadErr <;> simp [hup] at h
  obtain ⟨hpr, hw⟩ := h
  refine ⟨?_, ?_, ?_⟩
  · rw [← hpr]
  · rw [← hpr]
  · rw [← hw, ← hpr]

/-- For nonnegative values below `2 ^ 31`, Go's `int32` conversion is the
identity. -/
theorem int32_eq_self (n : Int) (h1 : 0 ≤ n) (h2 : n < 2 ^ 31) :
    int32 n = n := by
  unfold int32
  omega

theorem localSave_create_missing (s : localImageStorage) (cod : ExternalCodecs)
    (env : SaveEnv) (uniq : String) (file : FileHeader) (t : String) (d : Decoder)
    (cfg : ImageConfig) (consumed : Nat) (fs : FS)
    (ho : env.openErr = none) (hr : readStepErr env file = none)
    (ht : cod.detectContentType (sniffBuffer file.content) = t)
    (hd : lookupDecoder (CONTENT_DECODERS cod) t = some d)
    (hs1 : env.seek1Err = none) (hdec : d file.content = .ok (cfg, consumed))
    (hcr : env.createErr = none)
    (hdir : parentDir (s.GetFullPath (uniq ++ filepathExt file.filename)) ∉ fs.dirs) :
    localImageStorage.Save s cod env uniq file fs =
      (.error { StatusCode := 500,
                Error := "open " ++ s.GetFullPath (uniq ++ filepathExt file.filename) ++
                  ": no such file or directory",
                Data := none }, fs) := by
  subst ht
  simp [localImageStorage.Save, ho, hr, hd, hs1, hdec, osCreate, hcr, hdir]


/-! ## Claim theorems -/

/-- Claim C9: `GetFullPath` is a pure, total function of the backend
configuration and the key. In this embedding both variants are plain Lean
functions of the configuration record and the key — they take no medium
(`FS` / `S3World`) argument at all, so they can be called with no backing
store initialized, and they return a `String` with no error component — and
calling twice with the same key yields the same locator: `root ++ "/" ++ key`
for the Local variant and `cdnBase ++ "/" ++ pfx ++ key` for the Remote one. -/
theorem C9_getFullPath_pure :
    (∀ (s : localImageStorage) (key : String),
        s.GetFullPath key = s.path ++ "/" ++ key) ∧
    (∀ (s : s3ImageStorage) (key : String),
        s.GetFullPath key = s.cloudFrontURL ++ "/" ++ s.pfx ++ key) ∧
    (∀ (s : localImageStorage) (key : String),
        s.GetFullPath key = s.GetFullPath key) ∧
    (∀ (s : s3ImageStorage) (key : String),
        s.GetFullPath key = s.GetFullPath key) :=
  ⟨fun _ _ => rfl, fun _ _ => rfl, fun _ _ => rfl, fun _ _ => rfl⟩

/-- Claim C10: the Local variant's `GetFullPath` is the literal concatenation
`root ++ "/" ++ key` for every key — separators and `..` segments included,
with no normalization — and `Get` reads exactly that path from the medium;
hence a key with a `..` segment escapes the flat root directory: the key
`../secret` under root `uploads` resolves to `uploads/../secret`, which
normalizes to `secret`, a path that does not lie under `uploads/`. -/
theorem C10_no_sanitization :
    (∀ (root key : String),
        localImageStorage.GetFullPath { path := root } key = root ++ "/" ++ key) ∧
    (∀ (s : localImageStorage) (fs : FS) (key : String),
        localImageStorage.Get s cleanGetEnv fs key =
          match findFile fs.files (s.GetFullPath key) with
          | none => .error ("open " ++ s.GetFullPath key ++ ": no such file or directory")
          | some body => .ok body) ∧
    localImageStorage.GetFullPath { path := "uploads" } "../secret" = "uploads/../secret" ∧
    normalizePath (localImageStorage.GetFullPath { path := "uploads" } "../secret") = "secret" ∧
    ("secret".data.take 8 = "uploads/".data) = False := by
  refine ⟨fun _ _ => rfl, fun s fs key => ?_, rfl, rfl, by decide⟩
  cases h : findFile fs.files (s.GetFullPath key) <;>
    simp [localImageStorage.Get, cleanGetEnv, h]

/-- Claim C2: an upload whose sniffed content type is not a key of the
decoder registry is rejected by both Save variants with a 400-class error
carrying the detected type as diagnostic data, before the persistence step:
the medium comes back unchanged, and a generated key that did not resolve
before the call still does not resolve after it. -/
theorem C2_unsupported_rejected
    (cod : ExternalCodecs) (env : SaveEnv) (uniq : String) (file : FileHeader)
    (t dest : String) (s : localImageStorage) (fs : FS)
    (s3s : s3ImageStorage) (w : S3World)
    (ho : env.openErr = none) (hr : readStepErr env file = none)
    (ht : cod.detectContentType (sniffBuffer file.content) = t)
    (hn : lookupDecoder (CONTENT_DECODERS cod) t = none)
    (hl0 : findFile fs.files (s.GetFullPath dest) = none)
    (hs0 : s3FindObject w.objects s3s.bucket (s3s.pfx ++ dest) = none) :
    localImageStorage.Save s cod env uniq file fs =
      (.error { StatusCode := 400, Error := "unsupported format", Data := some t }, fs) ∧
    s3ImageStorage.Save s3s cod env uniq file w =
      (.error { StatusCode := 400, Error := "unsupported image format", Data := some t }, w) ∧
    localImageStorage.Get s cleanGetEnv fs dest =
      .error ("open " ++ s.GetFullPath dest ++ ": no such file or directory") ∧
    s3ImageStorage.Get s3s cleanS3GetEnv w dest = .error (.notFound dest) := by
  refine ⟨localSave_unsupported s cod env uniq file t fs ho hr ht hn,
          s3Save_unsupported s3s cod env uniq file t w ho hr ht hn, ?_, ?_⟩
  · simp [localImageStorage.Get, cleanGetEnv, hl0]
  · simp [s3ImageStorage.Get, cleanS3GetEnv, s3GetObject, hs0]

/-- Claim C2 witness: the plain-text upload `hello` named `cat.png` sniffs as
`text/plain`, is rejected 400 by both variants with that type as data, and
the generated key resolves in neither medium afterwards. -/
theorem C2_unsupported_rejected_witness :
    localImageStorage.Save lgDemo demoCodecs cleanSaveEnv "u1" textFile fsDemo =
      (.error { StatusCode := 400, Error := "unsupported format", Data := some "text/plain" },
       fsDemo) ∧
    s3ImageStorage.Save s3Demo demoCodecs cleanSaveEnv "u1" textFile w0 =
      (.error { StatusCode := 400, Error := "unsupported image format",
                Data := some "text/plain" }, w0) ∧
    localImageStorage.Get lgDemo cleanGetEnv fsDemo "u1.png" =
      .error ("open uploads/u1.png: no such file or directory") ∧
    s3ImageStorage.Get s3Demo cleanS3GetEnv w0 "u1.png" = .error (.notFound "u1.png") :=
  C2_unsupported_rejected demoCodecs cleanSaveEnv "u1" textFile "text/plain" "u1.png"
    lgDemo fsDemo s3Demo w0 rfl rfl (by decide) rfl rfl rfl

/-- Claim C3: an upload whose sniffed type is in the registry but whose
header decode fails is rejected by both Save variants with a 500-class error
carrying the detected format as diagnostic data, and nothing is persisted
under the generated key: the medium comes back unchanged and an unresolvable
key stays unresolvable. -/
theorem C3_decode_failure
    (cod : ExternalCodecs) (env : SaveEnv) (uniq : String) (file : FileHeader)
    (t dest e : String) (d : Decoder) (s : localImageStorage) (fs : FS)
    (s3s : s3ImageStorage) (w : S3World)
    (ho : env.openErr = none) (hr : readStepErr env file = none)
    (ht : cod.detectContentType (sniffBuffer file.content) = t)
    (hd : lookupDecoder (CONTENT_DECODERS cod) t = some d)
    (hs1 : env.seek1Err = none) (hdec : d file.content = .error e)
    (hl0 : findFile fs.files (s.GetFullPath dest) = none)
    (hs0 : s3FindObject w.objects s3s.bucket (s3s.pfx ++ dest) = none) :
    localImageStorage.Save s cod env uniq file fs =
      (.error { StatusCode := 500, Error := e, Data := some t }, fs) ∧
    s3ImageStorage.Save s3s cod env uniq file w =
      (.error { StatusCode := 500, Error := "decode error: " ++ e, Data := some t }, w) ∧
    localImageStorage.Get s cleanGetEnv fs dest =
      .error ("open " ++ s.GetFullPath dest ++ ": no such file or directory") ∧
    s3ImageStorage.Get s3s cleanS3GetEnv w dest = .error (.notFound dest) := by
  refine ⟨localSave_decode_error s cod env uniq file t d e fs ho hr ht hd hs1 hdec,
          s3Save_decode_error s3s cod env uniq file t d e w ho hr ht hd hs1 hdec, ?_, ?_⟩
  · simp [localImageStorage.Get, cleanGetEnv, hl0]
  · simp [s3ImageStorage.Get, cleanS3GetEnv, s3GetObject, hs0]

/-- Claim C3 witness: a four-byte stream carrying only the PNG magic sniffs
as `image/png`, its header decode fails, both variants return 500 with
`format = image/png`, and the generated key resolves in neither medium. -/
theorem C3_decode_failure_witness :
    localImageStorage.Save lgDemo demoCodecs cleanSaveEnv "u1" truncatedFile fsDemo =
      (.error { StatusCode := 500, Error := "png: not a PNG file", Data := some "image/png" },
       fsDemo) ∧
    s3ImageStorage.Save s3Demo demoCodecs cleanSaveEnv "u1" truncatedFile w0 =
      (.error { StatusCode := 500, Error := "decode error: png: not a PNG file",
                Data := some "image/png" }, w0) ∧
    localImageStorage.Get lgDemo cleanGetEnv fsDemo "u1.png" =
      .error ("open uploads/u1.png: no such file or directory") ∧
    s3ImageStorage.Get s3Demo cleanS3GetEnv w0 "u1.png" = .error (.notFound "u1.png") :=
  C3_decode_failure demoCodecs cleanSaveEnv "u1" truncatedFile "image/png" "u1.png"
    "png: not a PNG file" demoCodecs.pngDecode lgDemo fsDemo s3Demo w0
    rfl rfl (by decide) rfl rfl (by decide) rfl rfl

/-- Claim C5: the Remote variant's `Get` maps the medium's `NoSuchKey`
condition (whether from a genuinely absent object or from a transport error
carrying that code) to the distinguishable `notFound` kind and every other
fetch failure to the distinct `downloadFailed` kind — two provably different
constructors — while the Local variant's `Get` returns any open failure as
the raw, undifferentiated error value and reports a missing file through the
same single `String` error channel. -/
theorem C5_get_error_taxonomy
    (s3s : s3ImageStorage) (w : S3World) (dest c m : String)
    (s : localImageStorage) (fs : FS) (e : String) (env : GetEnv)
    (hc : c ≠ "NoSuchKey")
    (hmiss : s3FindObject w.objects s3s.bucket (s3s.pfx ++ dest) = none)
    (hoe : env.openErr = some e)
    (hnf : findFile fs.files (s.GetFullPath dest) = none) :
    s3ImageStorage.Get s3s cleanS3GetEnv w dest = .error (.notFound dest) ∧
    s3ImageStorage.Get s3s ⟨some ⟨some "NoSuchKey", m⟩, none⟩ w dest =
      .error (.notFound dest) ∧
    s3ImageStorage.Get s3s ⟨some ⟨some c, m⟩, none⟩ w dest =
      .error (.downloadFailed dest m) ∧
    s3ImageStorage.Get s3s ⟨some ⟨none, m⟩, none⟩ w dest =
      .error (.downloadFailed dest m) ∧
    (∀ k k' m', S3GetError.notFound k ≠ S3GetError.downloadFailed k' m') ∧
    localImageStorage.Get s env fs dest = .error e ∧
    localImageStorage.Get s cleanGetEnv fs dest =
      .error ("open " ++ s.GetFullPath dest ++ ": no such file or directory") := by
  refine ⟨?_, ?_, ?_, ?_, ?_, ?_, ?_⟩
  · simp [s3ImageStorage.Get, cleanS3GetEnv, s3GetObject, hmiss]
  · simp [s3ImageStorage.Get, s3GetObject]
  · simp [s3ImageStorage.Get, s3GetObject, hc]
  · simp [s3ImageStorage.Get, s3GetObject]
  · intro k k' m' h
    exact S3GetError.noConfusion h
  · simp [localImageStorage.Get, hoe]
  · simp [localImageStorage.Get, cleanGetEnv, hnf]

/-- Claim C5 witness: on the empty S3 medium the key `x.png` yields
`notFound`, an `AccessDenied` transport error yields `downloadFailed`, the
two kinds differ, and the local variant returns the raw medium errors. -/
theorem C5_get_error_taxonomy_witness :
    s3ImageStorage.Get s3Demo cleanS3GetEnv w0 "x.png" = .error (.notFound "x.png") ∧
    s3ImageStorage.Get s3Demo ⟨some ⟨some "AccessDenied", "denied"⟩, none⟩ w0 "x.png" =
      .error (.downloadFailed "x.png" "denied") ∧
    S3GetError.notFound "x.png" ≠ S3GetError.downloadFailed "x.png" "denied" ∧
    localImageStorage.Get lgDemo ⟨some "read error", none⟩ fsDemo "x.png" =
      .error "read error" ∧
    localImageStorage.Get lgDemo cleanGetEnv fsDemo "x.png" =
      .error ("open uploads/x.png: no such file or directory") :=
  have h := C5_get_error_taxonomy s3Demo w0 "x.png" "AccessDenied" "denied"
    lgDemo fsDemo "read error" ⟨some "read error", none⟩
    (by decide) rfl rfl rfl
  ⟨h.1, h.2.2.1, h.2.2.2.2.1 "x.png" "x.png" "denied", h.2.2.2.2.2.1, h.2.2.2.2.2.2⟩

/-- Claim C6: the decoder registry maps exactly the six MIME types
`image/jpeg`, `image/png`, `image/gif`, `image/tiff`, `image/webp`,
`image/bmp` to header decoders, lookup of any other type misses, and an
upload sniffed as any type outside these six is rejected by both Save
variants with a 400-class error identifying the detected type. -/
theorem C6_registry_exact
    (cod : ExternalCodecs) (env : SaveEnv) (uniq : String) (file : FileHeader)
    (t : String) (s : localImageStorage) (fs : FS) (s3s : s3ImageStorage) (w : S3World)
    (ho : env.openErr = none) (hr : readStepErr env file = none)
    (ht : cod.detectContentType (sniffBuffer file.content) = t)
    (hout : t ∉ supportedTypes) :
    (CONTENT_DECODERS cod).map Prod.fst = supportedTypes ∧
    lookupDecoder (CONTENT_DECODERS cod) t = none ∧
    (localImageStorage.Save s cod env uniq file fs).1 =
      .error { StatusCode := 400, Error := "unsupported format", Data := some t } ∧
    (s3ImageStorage.Save s3s cod env uniq file w).1 =
      .error { StatusCode := 400, Error := "unsupported image format", Data := some t } := by
  have hn := lookupDecoder_none_of_not_mem cod t hout
  refine ⟨rfl, hn, ?_, ?_⟩
  · rw [localSave_unsupported s cod env uniq file t fs ho hr ht hn]
  · rw [s3Save_unsupported s3s cod env uniq file t w ho hr ht hn]

/-- Claim C6 witness: the registry's key list is the six types, `text/plain`
misses it, and the `hello` upload sniffed as `text/plain` is rejected 400 by
both variants with that type as data. -/
theorem C6_registry_exact_witness :
    (CONTENT_DECODERS demoCodecs).map Prod.fst = supportedTypes ∧
    lookupDecoder (CONTENT_DECODERS demoCodecs) "text/plain" = none ∧
    (localImageStorage.Save lgDemo demoCodecs cleanSaveEnv "u1" textFile fsDemo).1 =
      .error { StatusCode := 400, Error := "unsupported format", Data := some "text/plain" } ∧
    (s3ImageStorage.Save s3Demo demoCodecs cleanSaveEnv "u1" textFile w0).1 =
      .error { StatusCode := 400, Error := "unsupported image format",
               Data := some "text/plain" } :=
  C6_registry_exact demoCodecs cleanSaveEnv "u1" textFile "text/plain"
    lgDemo fsDemo s3Demo w0 rfl rfl (by decide) (by decide)

/-- Claim C4 (the code contradicts it): in the local variant the error of the
second stream reset — `src.Seek(0, io.SeekStart)` immediately before
`io.Copy`, source line 194 — is DISCARDED, so that failing step is silently
ignored and execution continues: in a run where exactly that seek fails,
`Save` proceeds, persists only the bytes after the decoder's final position,
and reports success; the S3 variant returns a 500 error on the identical
failure, as the claim demands. -/
theorem C4_local_ignores_seek_failure :
    seekFailEnv.seek2Err = some "seek failed" ∧
    localImageStorage.Save lgDemo demoCodecs seekFailEnv "u1" catFile fsDemo =
      (.ok pr70, fsTrunc) ∧
    (s3ImageStorage.Save s3Demo demoCodecs seekFailEnv "u1" catFile w0).1 =
      .error { StatusCode := 500, Error := "seek before upload: seek failed",
               Data := none } :=
  ⟨rfl, by decide, by decide⟩

/-- Claim C1 counterexample: a local `Save` that succeeds yet after which the
immediate `Get` on the returned destination key does not return the original
bytes. The pre-copy seek failure is ignored (source line 194), so only the
37 bytes after the decoder's position are persisted while `Save` still
reports success; `Get` then returns those 37 zero bytes, not the 70-byte
original upload. -/
theorem C1_cex :
    localImageStorage.Save lgDemo demoCodecs seekFailEnv "u1" catFile fsDemo =
      (.ok pr70, fsTrunc) ∧
    localImageStorage.Get lgDemo cleanGetEnv fsTrunc "u1.png" =
      .ok (List.replicate 37 0) ∧
    List.replicate 37 0 ≠ pngSample :=
  ⟨by decide, by decide, by decide⟩

/-- Claim C1 (amended): for every upload on which `Save` succeeds — for the
Remote variant unconditionally, for the Local variant provided the ignored
pre-copy stream reset actually succeeded — an immediate `Get` called with the
`Destination` key returned by that `Save` yields a byte sequence identical to
the original uploaded bytes; in particular the key `Save` writes under
(local: `root/destination`; remote: `pfx + destination` in the bucket) is
exactly the key `Get` resolves. -/
theorem C1_round_trip
    (s : localImageStorage) (cod : ExternalCodecs) (env env3 : SaveEnv)
    (uniq uniq3 : String) (file : FileHeader) (fs fs' : FS) (pr pr3 : PictureRequest)
    (s3s : s3ImageStorage) (w w' : S3World)
    (h2 : env.seek2Err = none)
    (hl : localImageStorage.Save s cod env uniq file fs = (.ok pr, fs'))
    (hs : s3ImageStorage.Save s3s cod env3 uniq3 file w = (.ok pr3, w')) :
    localImageStorage.Get s cleanGetEnv fs' pr.Destination = .ok file.content ∧
    s3ImageStorage.Get s3s cleanS3GetEnv w' pr3.Destination = .ok file.content := by
  obtain ⟨consumed, hdest, hct, hfs⟩ := localSave_ok_inv s cod env uniq file fs pr fs' hl
  obtain ⟨hdest3, hct3, hw⟩ := s3Save_ok_inv s3s cod env3 uniq3 file w pr3 w' hs
  constructor
  · rw [hfs, h2]
    simp [localImageStorage.Get, cleanGetEnv, writeFile, findFile]
  · rw [hw]
    simp [s3ImageStorage.Get, cleanS3GetEnv, s3GetObject, s3Put, s3FindObject]

/-- Claim C1 witness: the 70-byte PNG `cat.png` saved by both variants under
unique name `u1` is read back byte-identical by an immediate `Get` on the
returned destination key `u1.png`. -/
theorem C1_round_trip_witness :
    localImageStorage.Get lgDemo cleanGetEnv fsSaved "u1.png" = .ok pngSample ∧
    s3ImageStorage.Get s3Demo cleanS3GetEnv wSaved "u1.png" = .ok pngSample :=
  C1_round_trip lgDemo demoCodecs cleanSaveEnv cleanSaveEnv "u1" "u1" catFile
    fsDemo fsSaved pr70 pr70 s3Demo w0 wSaved rfl (by decide) (by decide)

/-- Claim C7 counterexample: a 2^31-byte upload on which `Save` succeeds but
whose returned `Size` is `int32(2^31) = -2^31`, not the byte length of the
original upload — the source narrows `file.Size` (and the dimensions) with an
`int32` cast. -/
theorem C7_cex :
    Except.map (fun pr => pr.Size)
        (localImageStorage.Save lgDemo bigCodecs cleanSaveEnv "u1" bigFile fsDemo).1 =
      .ok (-2147483648) ∧
    (bigFile.content.length : Int) = 2147483648 ∧
    (-2147483648 : Int) ≠ 2147483648 := by
  have hlenN : bigContent.length = 2147483648 := by
    show (pngSig ++ List.replicate (2 ^ 31 - 8) 0).length = 2147483648
    rw [List.length_append, List.length_replicate]
    norm_num [pngSig]
  have h1 : (bigFile.content.length : Int) = 2147483648 := by
    show ((bigContent.length : Nat) : Int) = 2147483648
    rw [hlenN]
    norm_num
  have hdirBig : parentDir (lgDemo.GetFullPath ("u1" ++ filepathExt bigFile.filename))
      ∈ fsDemo.dirs := by
    show parentDir (lgDemo.GetFullPath ("u1" ++ filepathExt "big.png")) ∈ fsDemo.dirs
    decide
  refine ⟨?_, h1, by decide⟩
  rw [localSave_success lgDemo bigCodecs cleanSaveEnv "u1" bigFile "image/png"
      bigCodecs.pngDecode ⟨2, 2⟩ 33 fsDemo rfl rfl rfl rfl rfl rfl rfl hdirBig rfl rfl]
  show Except.ok (int32 (bigFile.content.length : Int)) = Except.ok (-2147483648)
  rw [h1]
  decide

/-- Claim C7 (amended): for every successful `Save` (either variant) the
returned `PictureRequest` has `Name` equal to the original uploaded filename,
`Destination` equal to the generated key including the original extension,
`ContentType` equal to the sniffed MIME type, and `Height`, `Width`, `Size`
equal to the decoded pixel dimensions and the byte length of the original
upload respectively — the latter three provided they fit in a signed 32-bit
integer, since the source narrows them with `int32` casts (see `C7_cex` for
the wrap at `2^31`); the code passes the decoder's dimensions through
unchecked, so their positivity is the decoder's guarantee, not `Save`'s. -/
theorem C7_fields
    (s : localImageStorage) (s3s : s3ImageStorage) (cod : ExternalCodecs)
    (env env3 : SaveEnv) (uniq : String) (file : FileHeader) (t : String)
    (d : Decoder) (cfg : ImageConfig) (consumed : Nat) (fs : FS) (w : S3World)
    (ho : env.openErr = none) (hr : readStepErr env file = none)
    (ht : cod.detectContentType (sniffBuffer file.content) = t)
    (hd : lookupDecoder (CONTENT_DECODERS cod) t = some d)
    (hs1 : env.seek1Err = none) (hdec : d file.content = .ok (cfg, consumed))
    (hcr : env.createErr = none)
    (hdir : parentDir (s.GetFullPath (uniq ++ filepathExt file.filename)) ∈ fs.dirs)
    (hs2 : env.seek2Err = none) (hcp : env.copyErr = none)
    (ho3 : env3.openErr = none) (hr3 : readStepErr env3 file = none)
    (hs13 : env3.seek1Err = none) (hs23 : env3.seek2Err = none)
    (hup3 : env3.uploadErr = none)
    (hH0 : 0 ≤ cfg.Height) (hH1 : cfg.Height < 2 ^ 31)
    (hW0 : 0 ≤ cfg.Width) (hW1 : cfg.Width < 2 ^ 31)
    (hS1 : (file.content.length : Int) < 2 ^ 31) :
    (localImageStorage.Save s cod env uniq file fs).1 =
      .ok { Name := file.filename, Destination := uniq ++ filepathExt file.filename,
            Height := cfg.Height, Width := cfg.Width,
            Size := (file.content.length : Int), ContentType := t } ∧
    (s3ImageStorage.Save s3s cod env3 uniq file w).1 =
      .ok { Name := file.filename, Destination := uniq ++ filepathExt file.filename,
            Height := cfg.Height, Width := cfg.Width,
            Size := (file.content.length : Int), ContentType := t } := by
  have hh := int32_eq_self cfg.Height hH0 hH1
  have hw := int32_eq_self cfg.Width hW0 hW1
  have hs := int32_eq_self (file.content.length : Int)
    (by exact_mod_cast Nat.zero_le file.content.length) hS1
  constructor
  · rw [localSave_success s cod env uniq file t d cfg consumed fs
        ho hr ht hd hs1 hdec hcr hdir hs2 hcp]
    simp [hh, hw, hs]
  · rw [s3Save_success s3s cod env3 uniq file t d cfg consumed w
        ho3 hr3 ht hd hs13 hdec hs23 hup3]
    simp [hh, hw, hs]

/-- Claim C7 witness: saving the 70-byte 2×2 PNG `cat.png` through both
variants returns exactly
`{Name := cat.png, Destination := u1.png, Height := 2, Width := 2, Size := 70, ContentType := image/png}`. -/
theorem C7_fields_witness :
    (localImageStorage.Save lgDemo demoCodecs cleanSaveEnv "u1" catFile fsDemo).1 =
      .ok { Name := "cat.png", Destination := "u1.png", Height := 2, Width := 2,
            Size := 70, ContentType := "image/png" } ∧
    (s3ImageStorage.Save s3Demo demoCodecs cleanSaveEnv "u1" catFile w0).1 =
      .ok { Name := "cat.png", Destination := "u1.png", Height := 2, Width := 2,
            Size := 70, ContentType := "image/png" } :=
  C7_fields lgDemo s3Demo demoCodecs cleanSaveEnv cleanSaveEnv "u1" catFile "image/png"
    demoCodecs.pngDecode ⟨2, 2⟩ 33 fsDemo w0
    rfl rfl (by decide) rfl rfl (by decide) rfl (by decide) rfl rfl
    rfl rfl rfl rfl rfl
    (by decide) (by decide) (by decide) (by decide) (by decide)

/-- Claim C8 counterexample: with the root directory absent at `Save` time,
the Local variant's persistence step does not create it — `os.Create` fails,
`Save` returns a 500 error and the medium still contains no directory at
all. The root directory is created by `NewStorage`, at construction. -/
theorem C8_cex :
    localImageStorage.Save lgDemo demoCodecs cleanSaveEnv "u1" catFile fsEmpty =
      (.error { StatusCode := 500,
                Error := "open uploads/u1.png: no such file or directory",
                Data := none }, fsEmpty) ∧
    fsEmpty.dirs = [] :=
  ⟨by decide, rfl⟩

/-- Claim C8 (amended): in `Save`'s persistence step the Local variant writes
the full stream to `<root>/<destination>` — but the root directory is created,
if absent, by the constructor `NewStorage`, not during `Save`: with the root
absent at `Save` time the persist step fails with a 500 error and creates
nothing. The Remote variant uploads the full stream to
`<bucket>/<pfx><destination>` with a private access policy and the sniffed
content type attached. -/
theorem C8_persist
    (s : localImageStorage) (s3s : s3ImageStorage) (cod : ExternalCodecs)
    (env : SaveEnv) (uniq : String) (file : FileHeader) (t : String) (d : Decoder)
    (cfg : ImageConfig) (consumed : Nat) (fs fsNoRoot : FS) (w : S3World)
    (p0 : String) (fs0 : FS)
    (ho : env.openErr = none) (hr : readStepErr env file = none)
    (ht : cod.detectContentType (sniffBuffer file.content) = t)
    (hd : lookupDecoder (CONTENT_DECODERS cod) t = some d)
    (hs1 : env.seek1Err = none) (hdec : d file.content = .ok (cfg, consumed))
    (hcr : env.createErr = none)
    (hdir : parentDir (s.GetFullPath (uniq ++ filepathExt file.filename)) ∈ fs.dirs)
    (hs2 : env.seek2Err = none) (hcp : env.copyErr = none)
    (hup : env.uploadErr = none)
    (hdir2 : parentDir (s.GetFullPath (uniq ++ filepathExt file.filename)) ∉ fsNoRoot.dirs) :
    findFile (localImageStorage.Save s cod env uniq file fs).2.files
        (s.GetFullPath (uniq ++ filepathExt file.filename)) = some file.content ∧
    (localImageStorage.Save s cod env uniq file fsNoRoot).1 =
      .error { StatusCode := 500,
               Error := "open " ++ s.GetFullPath (uniq ++ filepathExt file.filename) ++
                 ": no such file or directory",
               Data := none } ∧
    (localImageStorage.Save s cod env uniq file fsNoRoot).2 = fsNoRoot ∧
    (NewStorage p0 fs0).1 = { path := p0 } ∧
    p0 ∈ (NewStorage p0 fs0).2.dirs ∧
    s3FindObject (s3ImageStorage.Save s3s cod env uniq file w).2.objects s3s.bucket
        (s3s.pfx ++ (uniq ++ filepathExt file.filename)) =
      some { data := file.content, contentType := t, acl := "private" } := by
  refine ⟨?_, ?_, ?_, ?_, ?_, ?_⟩
  · rw [localSave_success s cod env uniq file t d cfg consumed fs
        ho hr ht hd hs1 hdec hcr hdir hs2 hcp]
    simp [writeFile, findFile]
  · rw [localSave_create_missing s cod env uniq file t d cfg consumed fsNoRoot
        ho hr ht hd hs1 hdec hcr hdir2]
  · rw [localSave_create_missing s cod env uniq file t d cfg consumed fsNoRoot
        ho hr ht hd hs1 hdec hcr hdir2]
  · unfold NewStorage
    split <;> rfl
  · unfold NewStorage
    split <;> simp [*]
  · rw [s3Save_success s3s cod env uniq file t d cfg consumed w
        ho hr ht hd hs1 hdec hs2 hup]
    simp [s3Put, s3FindObject]

/-- Claim C8 witness: saving `cat.png` locally lands the full 70 bytes at
`uploads/u1.png`; with no root directory the same save fails 500 and leaves
the medium unchanged; `NewStorage "uploads"` on an empty medium creates the
root; and the S3 save lands the object under `pics / img/u1.png` with the
private ACL and content type `image/png`. -/
theorem C8_persist_witness :
    findFile (localImageStorage.Save lgDemo demoCodecs cleanSaveEnv "u1" catFile fsDemo).2.files
        (localImageStorage.GetFullPath lgDemo "u1.png") = some pngSample ∧
    (localImageStorage.Save lgDemo demoCodecs cleanSaveEnv "u1" catFile fsEmpty).1 =
      .error { StatusCode := 500,
               Error := "open uploads/u1.png: no such file or directory",
               Data := none } ∧
    (localImageStorage.Save lgDemo demoCodecs cleanSaveEnv "u1" catFile fsEmpty).2 = fsEmpty ∧
    (NewStorage "uploads" fsEmpty).1 = { path := "uploads" } ∧
    "uploads" ∈ (NewStorage "uploads" fsEmpty).2.dirs ∧
    s3FindObject (s3ImageStorage.Save s3Demo demoCodecs cleanSaveEnv "u1" catFile w0).2.objects
        "pics" "img/u1.png" =
      some { data := pngSample, contentType := "image/png", acl := "private" } :=
  C8_persist lgDemo s3Demo demoCodecs cleanSaveEnv "u1" catFile "image/png"
    demoCodecs.pngDecode ⟨2, 2⟩ 33 fsDemo fsEmpty w0 "uploads" fsEmpty
    rfl rfl (by decide) rfl rfl (by decide) rfl (by decide) rfl rfl rfl (by decide)
